import Mathlib

/-!
# Transport adapter layer of `src/rak.js`

A shallow embedding of the RakNet adapter module: the backend registry
(`setBackend`, `module.exports`), the client adapters (`RakSanctClient`,
`RakNativeClient`, `RakJsClient`), the server adapters (`RakSanctServer`,
`RakNativeServer`, `RakJsServer`) and their `ping`, `close`, `sendReliable`
and `updateAdvertisement` operations.

JavaScript objects become records, method calls on the underlying backend
become entries of a call log (the backend libraries themselves are external),
`setTimeout` becomes an entry in a list of pending timers, and a thrown
exception becomes the `threw` field of a step result.
-/

namespace Rak

/-! ## Errors -/

/-- The exceptions that can leave the adapter code. -/
inductive JsErr where
  /-- `require(m)` failed for module `m`. -/
  | moduleNotFound (m : String)
  /-- A property was read from `undefined`. -/
  | typeError (what : String)
  /-- Instance of `class RakTimeout extends Error`. -/
  | rakTimeout (message : String)
  /-- An error thrown by an external conversion (`BigInt`, `AdvertisementToString`). -/
  | external (what : String)
  deriving DecidableEq, Repr

/-- How a call ends: it returns a value or throws. -/
inductive Outcome (α : Type) where
  | returned (v : α)
  | threw (e : JsErr)
  deriving DecidableEq, Repr

/-! ## Backend registry (`setBackend`, `module.exports`) -/

/-- The classes of the module that the registry can hand out. -/
inductive AdapterClass where
  | RakNativeServer | RakNativeClient
  | RakJsServer | RakJsClient
  | RakSanctServer | RakSanctClient
  deriving DecidableEq, Repr

/-- The object literal returned by `setBackend`; `RakTimeout` is always the one
error class of the module, so the field records only that it is present. -/
structure Exports where
  RakServer : AdapterClass
  RakClient : AdapterClass
  RakTimeout : Bool
  deriving DecidableEq, Repr

/-- The argument of the registry, as far as the code distinguishes values. -/
inductive Ident where
  | undefined
  | null
  | str (s : String)
  deriving DecidableEq, Repr

/-- JavaScript truthiness of the registry argument (`if (backend)`). -/
def Ident.truthy : Ident → Bool
  | .undefined => false
  | .null => false
  | .str s => s ≠ ""

/-- Outcome of a registry call: the returned value or the exception, the modules
passed to `require` (oldest first) and the `console.debug` diagnostics. -/
structure RegOut where
  result : Outcome (Option Exports)
  required : List String
  diagnostics : List String
  deriving DecidableEq, Repr

/-- One `require(m)` in an environment where `loads m` tells whether the module
can be loaded. -/
def require (loads : String → Bool) (m : String) : Outcome Unit :=
  if loads m then .returned () else .threw (.moduleNotFound m)

/-- The `switch` of `setBackend`: every `case` requires its module first and
returns its object literal; there is no `default`, so any other value falls out
of the function, which returns `undefined` (`none`). -/
def setBackend (loads : String → Bool) (backend : Ident) : RegOut :=
  match backend with
  | .str "raknet-node" =>
    match require loads "raknet-node" with
    | .threw e => ⟨.threw e, ["raknet-node"], []⟩
    | .returned _ => ⟨.returned (some ⟨.RakNativeServer, .RakNativeClient, true⟩), ["raknet-node"], []⟩
  | .str "raknet-native" =>
    match require loads "raknet-native" with
    | .threw e => ⟨.threw e, ["raknet-native"], []⟩
    | .returned _ => ⟨.returned (some ⟨.RakNativeServer, .RakNativeClient, true⟩), ["raknet-native"], []⟩
  | .str "jsp-raknet" =>
    match require loads "jsp-raknet" with
    | .threw e => ⟨.threw e, ["jsp-raknet"], []⟩
    | .returned _ => ⟨.returned (some ⟨.RakJsServer, .RakJsClient, true⟩), ["jsp-raknet"], []⟩
  | .str "sanctumterra" =>
    match require loads "@sanctumterra/raknet" with
    | .threw e => ⟨.threw e, ["@sanctumterra/raknet"], []⟩
    | .returned _ =>
      match require loads "@sanctumterra/raknet" with
      | .threw e => ⟨.threw e, ["@sanctumterra/raknet", "@sanctumterra/raknet"], []⟩
      | .returned _ =>
        match require loads "@sanctumterra/raknet" with
        | .threw e =>
          ⟨.threw e, ["@sanctumterra/raknet", "@sanctumterra/raknet", "@sanctumterra/raknet"], []⟩
        | .returned _ =>
          ⟨.returned (some ⟨.RakSanctServer, .RakSanctClient, true⟩),
            ["@sanctumterra/raknet", "@sanctumterra/raknet", "@sanctumterra/raknet"], []⟩
  | _ => ⟨.returned none, [], []⟩

/-- Text of the template literal passed to `console.debug`; `backend` is falsy
on this path and is rendered as JavaScript renders it. -/
def fallbackDiagnostic (backend : Ident) : String :=
  let shown := match backend with
    | .undefined => "undefined"
    | .null => "null"
    | .str s => s
  "[raknet] " ++ shown ++
    " library not found, defaulting to jsp-raknet. Correct the \"raknetBackend\" option to avoid this error."

/-- The function assigned to `module.exports`. -/
def select (loads : String → Bool) (backend : Ident) : RegOut :=
  if backend.truthy then
    setBackend loads backend
  else
    let first := setBackend loads (.str "raknet-native")
    match first.result with
    | .returned v => ⟨.returned v, first.required, first.diagnostics⟩
    | .threw _ =>
      let second := setBackend loads (.str "jsp-raknet")
      ⟨second.result, first.required ++ second.required,
        first.diagnostics ++ [fallbackDiagnostic backend] ++ second.diagnostics⟩

/-! ## Shared vocabulary of the adapters -/

/-- Payload bytes of a packet. -/
abbrev Buffer := List Nat

/-- The two members of the backend's `PacketPriority` that the adapters use. -/
inductive Priority where
  | IMMEDIATE_PRIORITY
  | MEDIUM_PRIORITY
  deriving DecidableEq, Repr

/-- Messages posted to the connection worker by `RakJsClient`. -/
inductive WorkerMsg where
  | close (reason : Option String)
  | queueEncapsulated (packet : Buffer) (immediate : Bool)
  | ping
  deriving DecidableEq, Repr

/-- Calls a client adapter makes on its backend (`this.raknet`, `this.worker`,
`ConnWorker`), in the form they cross the boundary. -/
inductive BackendCall where
  /-- Expression `new Client(...)`. -/
  | newClient
  /-- Call `ConnWorker.connect(host, port)`. -/
  | workerConnect
  | connect
  | ping
  | cleanup
  | close (reason : Option String)
  | frameAndSend (buffer : Buffer) (priority : Priority)
  /-- Call `raknet.send(buffer, priority, PacketReliability.RELIABLE_ORDERED, 0)`. -/
  | send (buffer : Buffer) (priority : Priority) (channel : Nat)
  /-- Call `connection.addEncapsulatedToQueue` with a `ReliableOrdered` packet holding `buffer`. -/
  | addEncapsulatedToQueue (buffer : Buffer)
  | sendQueue
  | postMessage (msg : WorkerMsg)
  deriving DecidableEq, Repr

/-- Invocations of the consumer's handlers by a client adapter. -/
inductive ConsumerCall where
  | onConnected
  | onEncapsulated (buffer : Buffer) (address : String)
  | onCloseConnection (reason : Option String)
  deriving DecidableEq, Repr

/-- A pending `setTimeout(() => task, delay)`. -/
structure Timer (α : Type) where
  delay : Nat
  task : α
  deriving DecidableEq, Repr

/-- Result of a method call: the exception it threw, if any, and the state it left. -/
structure Step (σ : Type) where
  threw : Option JsErr
  next : σ
  deriving DecidableEq, Repr

/-! ## Client adapters -/

/-- The client classes; `RakJsClient` picks its methods in the constructor from
`options.useWorkers`, which gives two variants. -/
inductive Kind where
  | sanct
  | native
  | jsPlain
  | jsWorker
  deriving DecidableEq, Repr

/-- Instance state of a client adapter together with the logs of what it did. -/
structure Client where
  kind : Kind
  /-- Field `this.connected`; `none` when the class never assigns it (`RakJsClient`). -/
  connected : Option Bool
  /-- Whether `this.raknet` is defined. -/
  raknet : Bool
  /-- Whether `this.raknet.connection` is defined: the backend client of
  `RakJsClient` has its connection once its `connect()` has completed. Only
  `plainSendReliable` reads it. -/
  connection : Bool
  /-- Whether `this.worker` is defined. -/
  worker : Bool
  /-- Whether the adapter's event handlers are registered on the backend. -/
  listening : Bool
  /-- Whether `this.pongCb` holds a callback. -/
  pongCb : Bool
  backend : List BackendCall
  consumer : List ConsumerCall
  timers : List (Timer BackendCall)
  deriving DecidableEq, Repr

/-- The constructors. `RakSanctClient` and `RakNativeClient` create the backend
client and register their handlers at once; `RakJsClient` creates nothing. -/
def Client.new : Kind → Client
  | .sanct => ⟨.sanct, some false, true, false, false, true, false, [.newClient], [], []⟩
  | .native => ⟨.native, some false, true, false, false, true, false, [.newClient], [], []⟩
  | .jsPlain => ⟨.jsPlain, none, false, false, false, false, false, [], [], []⟩
  | .jsWorker => ⟨.jsWorker, none, false, false, false, false, false, [], [], []⟩

/-- Expression `immediate ? PacketPriority.IMMEDIATE_PRIORITY : PacketPriority.MEDIUM_PRIORITY`. -/
def priorityOf (immediate : Bool) : Priority :=
  if immediate then .IMMEDIATE_PRIORITY else .MEDIUM_PRIORITY

/-- Method `connect()`, up to its first suspension point: `workerConnect` creates
the worker and registers the message handler; `plainConnect` creates the client
and awaits `raknet.connect()`. -/
def Client.connect (c : Client) : Client :=
  match c.kind with
  | .sanct => { c with backend := c.backend ++ [.connect] }
  | .native => { c with backend := c.backend ++ [.connect] }
  | .jsWorker => { c with worker := true, listening := true, backend := c.backend ++ [.workerConnect] }
  | .jsPlain => { c with raknet := true, backend := c.backend ++ [.newClient, .connect] }

/-- The rest of `plainConnect` after `await this.raknet.connect()`: the backend
client has completed its handshake and holds its connection, and the handlers
are registered. The other classes have nothing left to do. -/
def Client.connectResumed (c : Client) : Client :=
  match c.kind with
  | .jsPlain => { c with connection := true, listening := true }
  | _ => c

/-- Method `sendReliable(buffer, immediate)` of each class; for `RakJsClient` the
constructor binds it to `workerSendReliable` or `plainSendReliable`. The latter
reaches the backend through `this.raknet.connection`, so it needs both the client
and its connection; reading a property of `undefined` throws. -/
def Client.sendReliable (c : Client) (buffer : Buffer) (immediate : Bool) : Step Client :=
  match c.kind with
  | .sanct =>
    if c.connected ≠ some true then ⟨none, c⟩
    else ⟨none, { c with backend := c.backend ++ [.frameAndSend buffer (priorityOf immediate)] }⟩
  | .native =>
    if c.connected ≠ some true then ⟨none, c⟩
    else ⟨none, { c with backend := c.backend ++ [.send buffer (priorityOf immediate) 0] }⟩
  | .jsWorker =>
    if c.worker then
      ⟨none, { c with backend := c.backend ++ [.postMessage (.queueEncapsulated buffer immediate)] }⟩
    else ⟨some (.typeError "this.worker is undefined"), c⟩
  | .jsPlain =>
    if c.raknet then
      if c.connection then
        ⟨none, { c with backend := c.backend ++ [.addEncapsulatedToQueue buffer] ++
          (if immediate then [.sendQueue] else []) }⟩
      else ⟨some (.typeError "this.raknet.connection is undefined"), c⟩
    else ⟨some (.typeError "this.raknet is undefined"), c⟩

/-- Method `close(reason)` of each class; for `RakJsClient` it is the arrow
function the constructor assigns for its variant. -/
def Client.close (c : Client) (reason : Option String) : Step Client :=
  match c.kind with
  | .sanct => ⟨none, { c with connected := some false, timers := c.timers ++ [⟨40, .cleanup⟩] }⟩
  | .native => ⟨none, { c with connected := some false, timers := c.timers ++ [⟨40, .close none⟩] }⟩
  | .jsWorker =>
    if c.worker then ⟨none, { c with backend := c.backend ++ [.postMessage (.close reason)] }⟩
    else ⟨none, c⟩
  | .jsPlain =>
    if c.raknet then ⟨none, { c with backend := c.backend ++ [.close reason] }⟩
    else ⟨some (.typeError "this.raknet is undefined"), c⟩

/-- The oldest pending timer expires and its callback runs. -/
def Client.fire (c : Client) : Client :=
  match c.timers with
  | [] => c
  | t :: rest => { c with timers := rest, backend := c.backend ++ [t.task] }

/-- Every timer pending now expires, oldest first. -/
def Client.fireAll (c : Client) : Client :=
  Nat.iterate Client.fire c.timers.length c

/-- Events a backend raises towards a client adapter: `'connect'` (`'connected'`
for jsp-raknet and the worker), `'encapsulated'`, and `'close'`/`'disconnect'`. -/
inductive Event where
  | connect
  | encapsulated (buffer : Buffer) (address : String)
  | disconnect (reason : Option String)
  deriving DecidableEq, Repr

/-- The handler each class registered for a backend event. For `RakJsClient` the
`address` of an `'encapsulated'` event stands for the `hash` of the address the
backend reports, which is what the handler passes on. -/
def Client.onEvent (c : Client) (e : Event) : Client :=
  match c.kind with
  | .sanct =>
    match e with
    | .encapsulated buffer _ =>
      if c.connected = some true then
        { c with consumer := c.consumer ++ [.onEncapsulated buffer "127.0.0.1"] }
      else c
    | .connect => { c with connected := some true, consumer := c.consumer ++ [.onConnected] }
    | .disconnect _ =>
      { c with connected := some false,
               consumer := c.consumer ++ [.onCloseConnection (some "Raknet Closed")] }
  | .native =>
    match e with
    | .encapsulated buffer address =>
      if c.connected = some true then
        { c with consumer := c.consumer ++ [.onEncapsulated buffer address] }
      else c
    | .connect => { c with connected := some true, consumer := c.consumer ++ [.onConnected] }
    | .disconnect reason =>
      { c with connected := some false, consumer := c.consumer ++ [.onCloseConnection reason] }
  | .jsWorker =>
    if c.listening then
      match e with
      | .connect => { c with consumer := c.consumer ++ [.onConnected] }
      | .encapsulated buffer address =>
        { c with consumer := c.consumer ++ [.onEncapsulated buffer address] }
      | .disconnect _ => { c with consumer := c.consumer ++ [.onCloseConnection none] }
    else c
  | .jsPlain =>
    if c.listening then
      match e with
      | .connect => { c with consumer := c.consumer ++ [.onConnected] }
      | .encapsulated buffer address =>
        { c with consumer := c.consumer ++ [.onEncapsulated buffer address] }
      | .disconnect reason => { c with consumer := c.consumer ++ [.onCloseConnection reason] }
    else c

/-- The backend raises a sequence of events, one after the other. -/
def Client.run (c : Client) (events : List Event) : Client :=
  events.foldl Client.onEvent c

/-- Number of times the consumer's `onEncapsulated` handler has been invoked. -/
def delivered (log : List ConsumerCall) : Nat :=
  log.countP fun call => match call with
    | .onEncapsulated _ _ => true
    | _ => false

/-- Number of backend releases (`raknet.cleanup()` / `raknet.close()`) in a call log. -/
def releases (log : List BackendCall) : Nat :=
  log.countP fun call => match call with
    | .cleanup => true
    | .close _ => true
    | _ => false

/-! ## Ping -/

/-- What a backend may hand back after a ping request, with the payload as the
adapter reads it. -/
inductive Reply where
  /-- A `'pong'` event, worker message or ping callback; `payload` is `ret.extra`
  (shown as the text `ret.extra.toString()` yields), `evt.args` or `data`, and
  `none` when that value is absent. -/
  | pong (payload : Option String)
  /-- The promise of `raknet.ping()` is fulfilled; `formatted` is what
  `AdvertisementToString` does on the fulfilment value. -/
  | fulfilled (formatted : Outcome String)
  /-- The promise of `raknet.ping()` is rejected. -/
  | rejected
  deriving DecidableEq, Repr

/-- How the promise returned by `ping` settles. -/
inductive Settled where
  | resolved (value : Option String)
  | rejected (e : JsErr)
  /-- The deadline passed and the timeout handler returned without throwing. -/
  | expired
  deriving DecidableEq, Repr

/-- Modelled from the spec: `waitFor` of `./datatypes/util`, the timeout race
primitive, is not part of the sources at hand. The spec describes it as racing an
operation against a deadline where whichever of the response and the timer comes
first wins. `dones` lists the calls of the completion callback in the order they
happen, each with the time in milliseconds since the race began and the value
passed; a completion wins when it happens before `withTimeout` milliseconds have
passed, otherwise the timer wins and `onTimeout` runs. -/
def waitFor (dones : List (Nat × Option String)) (withTimeout : Nat)
    (onTimeout : Outcome Unit) : Settled :=
  match dones.find? fun d => d.1 < withTimeout with
  | some d => .resolved d.2
  | none =>
    match onTimeout with
    | .threw e => .rejected e
    | .returned _ => .expired

/-- The default of the `timeout` parameter of every `ping`. -/
def defaultPingTimeout : Nat := 1000

/-- The timeout handler every `ping` passes to `waitFor`:
`() => { throw new RakTimeout('Ping timed out') }`. -/
def pingOnTimeout : Outcome Unit := .threw (.rakTimeout "Ping timed out")

/-- What the callbacks installed by `ping` do with a reply: `some v` when they
call the completion callback with `v`, `none` when they do not call it.
`RakSanctClient` completes with the formatted advertisement, and with `null` from
its `catch`, which also receives what `AdvertisementToString` throws;
`RakNativeClient` completes only `if (ret.extra)`; `RakJsClient` passes the data on
(its plain variant closes its client first). -/
def pingDone : Kind → Reply → Option (Option String)
  | .sanct, .fulfilled (.returned text) => some (some text)
  | .sanct, .fulfilled (.threw _) => some none
  | .sanct, .rejected => some none
  | .sanct, .pong _ => none
  | .native, .pong (some text) => some (some text)
  | .native, .pong none => none
  | .native, _ => none
  | .jsPlain, .pong data => some data
  | .jsPlain, _ => none
  | .jsWorker, .pong data => some data
  | .jsWorker, _ => none

/-- The synchronous part of `ping`: the request sent to the backend.
`RakJsClient.ping` branches on `this.worker` and creates a client when it has none. -/
def Client.pingStart (c : Client) : Client :=
  match c.kind with
  | .sanct => { c with backend := c.backend ++ [.ping] }
  | .native => { c with backend := c.backend ++ [.ping] }
  | _ =>
    if c.worker then
      { c with pongCb := true, backend := c.backend ++ [.postMessage .ping] }
    else if c.raknet then
      { c with backend := c.backend ++ [.ping] }
    else
      { c with raknet := true, backend := c.backend ++ [.newClient, .ping] }

/-- Method `ping(timeout)`: `waitFor` over the completions that the backend's
timed replies cause. -/
def ping (k : Kind) (timeout : Nat) (replies : List (Nat × Reply)) : Settled :=
  waitFor (replies.filterMap fun r => (pingDone k r.2).map fun v => (r.1, v)) timeout
    pingOnTimeout

/-! ## Server adapters -/

/-- The consumer's advertisement object, as far as the adapters read it. -/
structure Advertisement where
  motd : String
  levelName : String
  serverId : String
  version : String
  playersMax : Nat
  deriving DecidableEq, Repr

/-- Values stored in the backend's `motd` option by `RakSanctServer`. -/
inductive Motd where
  /-- The buffer `ad.toBuffer()`, named by the advertisement it serialises. -/
  | serialized (ad : Advertisement)
  /-- The string `ad.motd`. -/
  | text (s : String)
  deriving DecidableEq, Repr

/-- A connection object of the backend. -/
structure Conn where
  /-- Field `address` of `getAddress()`. -/
  address : String
  /-- Field `port` of `getAddress()`. -/
  port : Nat
  connected : Bool
  /-- Property `address.hash` of the connection, when it has one. -/
  hash : Option String
  deriving DecidableEq, Repr

/-- Calls a server adapter makes on its backend. -/
inductive ServerCall where
  /-- Expression `new Server(...)`. -/
  | newServer
  | start
  | listen
  | close
  /-- Call `setOfflineMessage(ad.toBuffer())`. -/
  | setOfflineMessage (ad : Advertisement)
  | setPongAdvertisement (ad : Advertisement)
  deriving DecidableEq, Repr

/-- Invocations of the consumer's handlers by a server adapter. -/
inductive ServerConsumerCall where
  | onOpenConnection (conn : Conn)
  | onCloseConnection (conn : Conn)
  | onEncapsulated (packet : Buffer) (address : String) (port : Nat) (hash : Option String)
  | onClose (reason : Option String)
  deriving DecidableEq, Repr

/-- The server classes. -/
inductive ServerKind where
  | sanct
  | native
  | js
  deriving DecidableEq, Repr

/-- Instance state of a server adapter, the state of its backend that the
adapter sets, and the logs of what it did. -/
structure Server where
  kind : ServerKind
  /-- Whether `this.raknet` is defined. -/
  raknet : Bool
  host : String
  port : Nat
  /-- Protocol id given to the backend (`RakJsServer` gives none). -/
  protocol : Option Nat
  maxConnections : Option Nat
  motd : Option Motd
  levelName : Option String
  guid : Option Int
  version : Option String
  /-- The backend's live connections. -/
  conns : List Conn
  backend : List ServerCall
  consumer : List ServerConsumerCall
  timers : List (Timer ServerCall)
  deriving DecidableEq, Repr

/-- Expression `options.maxPlayers || 3`. -/
def maxConnectionsOf (maxPlayers : Option Nat) : Nat :=
  match maxPlayers with
  | none => 3
  | some n => if n = 0 then 3 else n

/-- Expression `server.versionLessThan('1.19.30') ? 10 : 11`. -/
def protocolOf (versionLessThan : Bool) : Nat :=
  if versionLessThan then 10 else 11

/-- The constructors (with `options.useWorkers` unset for `RakJsServer`).
`RakSanctServer` and `RakNativeServer` create the backend server; `RakJsServer`
only stores its options. -/
def Server.new (k : ServerKind) (host : String) (port : Nat) (maxPlayers : Option Nat)
    (versionLessThan : Bool) (ad : Advertisement) : Server :=
  match k with
  | .sanct =>
    ⟨.sanct, true, host, port, some (protocolOf versionLessThan),
      some (maxConnectionsOf maxPlayers), some (.serialized ad), none, none, none,
      [], [.newServer], [], []⟩
  | .native =>
    ⟨.native, true, host, port, some (protocolOf versionLessThan),
      some (maxConnectionsOf maxPlayers), some (.serialized ad), none, none, none,
      [], [.newServer], [], []⟩
  | .js => ⟨.js, false, host, port, none, none, none, none, none, none, [], [], [], []⟩

/-- Method `listen()`; `plainListen` of `RakJsServer` creates the backend here. -/
def Server.listen (s : Server) : Server :=
  match s.kind with
  | .sanct => { s with backend := s.backend ++ [.start] }
  | .native => { s with backend := s.backend ++ [.listen] }
  | .js => { s with raknet := true, backend := s.backend ++ [.newServer, .listen] }

/-- Method `updateAdvertisement()`, where `ad` is what `server.getAdvertisement()`
returns and `toBigInt` is JavaScript's `BigInt` conversion (`none` when it throws). -/
def Server.updateAdvertisement (toBigInt : String → Option Int) (s : Server)
    (ad : Advertisement) : Step Server :=
  match s.kind with
  | .sanct =>
    let s1 := { s with levelName := some ad.levelName, motd := some (.text ad.motd) }
    match toBigInt ad.serverId with
    | none => ⟨some (.external "BigInt"), s1⟩
    | some g =>
      ⟨none, { s1 with guid := some g, version := some ad.version,
                       maxConnections := some ad.playersMax }⟩
  | .native => ⟨none, { s with backend := s.backend ++ [.setOfflineMessage ad] }⟩
  | .js =>
    if s.raknet then ⟨none, { s with backend := s.backend ++ [.setPongAdvertisement ad] }⟩
    else ⟨some (.typeError "this.raknet is undefined"), s⟩

/-- Method `close()`: `RakSanctServer` and `RakNativeServer` close the backend at
once, `RakJsServer` from a timer. -/
def Server.close (s : Server) : Server :=
  match s.kind with
  | .sanct => { s with backend := s.backend ++ [.close] }
  | .native => { s with backend := s.backend ++ [.close] }
  | .js => { s with timers := s.timers ++ [⟨40, .close⟩] }

/-- The oldest pending timer expires and its callback runs; the callback of
`RakJsServer.close` reads `this.raknet`. -/
def Server.fire (s : Server) : Step Server :=
  match s.timers with
  | [] => ⟨none, s⟩
  | t :: rest =>
    if s.raknet then ⟨none, { s with timers := rest, backend := s.backend ++ [t.task] }⟩
    else ⟨some (.typeError "this.raknet is undefined"), { s with timers := rest }⟩

/-- Every timer pending now expires, oldest first. -/
def Server.fireAll (s : Server) : Server :=
  Nat.iterate (fun x => (Server.fire x).next) s.timers.length s

/-- Template literal of the connection identifier: address, slash, port. -/
def connHash (address : String) (port : Nat) : String :=
  address ++ "/" ++ toString port

/-- The handler for a new peer (`'connect'` for `RakSanctServer`, `'openConnection'`
for the others). `RakSanctServer` marks the connection connected and replaces its
`address` by a copy of `getAddress()` extended with `hash`; the others only attach
`sendReliable`. Every class then calls `onOpenConnection`. -/
def Server.onConnect (s : Server) (conn : Conn) : Server :=
  match s.kind with
  | .sanct =>
    let conn1 : Conn :=
      { conn with connected := true, hash := some (connHash conn.address conn.port) }
    { s with conns := s.conns ++ [conn1], consumer := s.consumer ++ [.onOpenConnection conn1] }
  | _ => { s with conns := s.conns ++ [conn], consumer := s.consumer ++ [.onOpenConnection conn] }

/-- The handler for `'encapsulated'`. `RakSanctServer` hands the consumer a copy
of `getAddress()` extended with `hash`; the others pass the backend's address on. -/
def Server.onEncapsulated (s : Server) (packet : Buffer) (conn : Conn) : Server :=
  match s.kind with
  | .sanct =>
    { s with consumer := s.consumer ++
        [.onEncapsulated packet conn.address conn.port (some (connHash conn.address conn.port))] }
  | _ =>
    { s with consumer := s.consumer ++ [.onEncapsulated packet conn.address conn.port conn.hash] }

/-- Number of `raknet.close()` calls in a server's call log. -/
def serverReleases (log : List ServerCall) : Nat :=
  log.count .close

/-- Method `close()` called `n` times in a row on a client. -/
def Client.closeN (n : Nat) (c : Client) : Client :=
  Nat.iterate (fun x => (x.close none).next) n c

/-- Method `close()` called `n` times in a row on a server. -/
def Server.closeN (n : Nat) (s : Server) : Server :=
  Nat.iterate Server.close n s

/-- The backend call that the timer of `close()` makes: `raknet.cleanup()` for
`RakSanctClient`, `raknet.close()` for `RakNativeClient`. -/
def releaseOf : Kind → BackendCall
  | .sanct => .cleanup
  | _ => .close none

/-- The number a string of decimal digits denotes, read left to right. -/
def digitsValue (ds : List Char) : Nat :=
  ds.foldl (fun acc ch => acc * 10 + (ch.toNat - 48)) 0

/-- JavaScript's `BigInt` conversion on strings of decimal digits (the empty
string converts to zero); any other string is treated as rejected. -/
def bigIntOfDigits (s : String) : Option Int :=
  if s.data.all Char.isDigit then some (digitsValue s.data) else none

/-! ## Statements of the specification -/

/-- The registry table of the specification: the module an identifier loads and
the classes it selects. -/
def selectionTable (identifier : String) : Option (String × Exports) :=
  if identifier = "raknet-node" then
    some ("raknet-node", ⟨.RakNativeServer, .RakNativeClient, true⟩)
  else if identifier = "raknet-native" then
    some ("raknet-native", ⟨.RakNativeServer, .RakNativeClient, true⟩)
  else if identifier = "jsp-raknet" then
    some ("jsp-raknet", ⟨.RakJsServer, .RakJsClient, true⟩)
  else if identifier = "sanctumterra" then
    some ("@sanctumterra/raknet", ⟨.RakSanctServer, .RakSanctClient, true⟩)
  else none

/-! ## The registry -/

/-- C7, counterexample: the identifier `raknet-node` does not give the native
classes when its module cannot be loaded; the load error is thrown to the caller. -/
theorem select_known_load_failure :
    select (fun _ => false) (.str "raknet-node") =
      ⟨.threw (.moduleNotFound "raknet-node"), ["raknet-node"], []⟩ := by
  simp [select, Ident.truthy, setBackend, require]

/-- C7, amended: for a non-empty identifier the registry follows the table. For an
identifier of the table its module is required, no other module is, and no
diagnostic is emitted; the entry's classes are returned when the module loads and
the load error is thrown to the caller when it does not. Every other non-empty
identifier gives `undefined`, requires no module, emits no diagnostic and raises
no exception. -/
theorem select_follows_table (loads : String → Bool) (identifier : String)
    (hne : identifier ≠ "") :
    match selectionTable identifier with
    | some (m, classes) =>
      m ∈ (select loads (.str identifier)).required ∧
        (∀ r ∈ (select loads (.str identifier)).required, r = m) ∧
        (select loads (.str identifier)).diagnostics = [] ∧
        (select loads (.str identifier)).result =
          if loads m = true then .returned (some classes) else .threw (.moduleNotFound m)
    | none => select loads (.str identifier) = ⟨.returned none, [], []⟩ := by
  have ht : (Ident.str identifier).truthy = true := by simp [Ident.truthy, hne]
  unfold selectionTable
  split_ifs with h1 h2 h3 h4
  · subst h1; cases hl : loads "raknet-node" <;>
      simp [select, Ident.truthy, setBackend, require, hl]
  · subst h2; cases hl : loads "raknet-native" <;>
      simp [select, Ident.truthy, setBackend, require, hl]
  · subst h3; cases hl : loads "jsp-raknet" <;>
      simp [select, Ident.truthy, setBackend, require, hl]
  · subst h4; cases hl : loads "@sanctumterra/raknet" <;>
      simp [select, Ident.truthy, setBackend, require, hl]
  · simp only [select, ht, if_true]
    unfold setBackend
    split <;> simp_all

/-- Witness of the amended C7: `jsp-raknet` with every module loadable, `sanctumterra`
with none, and an identifier outside the table. -/
theorem select_follows_table_witness :
    (select (fun _ => true) (.str "jsp-raknet")).result
        = .returned (some ⟨.RakJsServer, .RakJsClient, true⟩) ∧
      (select (fun _ => false) (.str "sanctumterra")).result
        = .threw (.moduleNotFound "@sanctumterra/raknet") ∧
      select (fun _ => true) (.str "bogus") = ⟨.returned none, [], []⟩ :=
  ⟨(select_follows_table (fun _ => true) "jsp-raknet" (by decide)).2.2.2,
    (select_follows_table (fun _ => false) "sanctumterra" (by decide)).2.2.2,
    select_follows_table (fun _ => true) "bogus" (by decide)⟩

/-- C8, counterexample: with no identifier and neither `raknet-native` nor
`jsp-raknet` loadable, the registry throws the load error of `jsp-raknet` to its
caller, after one diagnostic. -/
theorem select_default_throws :
    select (fun _ => false) .undefined =
      ⟨.threw (.moduleNotFound "jsp-raknet"), ["raknet-native", "jsp-raknet"],
        [fallbackDiagnostic .undefined]⟩ := by
  simp [select, Ident.truthy, setBackend, require]

/-- C8, amended: called with no identifier (a falsy one), the registry returns the
native classes when `raknet-native` loads; when that fails and `jsp-raknet` loads
it returns the `jsp-raknet` classes after exactly one diagnostic; and when both
fail the load error of `jsp-raknet` reaches the caller. -/
theorem select_default (loads : String → Bool) (backend : Ident)
    (hfalsy : backend.truthy = false) :
    (loads "raknet-native" = true →
      select loads backend =
        ⟨.returned (some ⟨.RakNativeServer, .RakNativeClient, true⟩), ["raknet-native"], []⟩) ∧
    (loads "raknet-native" = false → loads "jsp-raknet" = true →
      select loads backend =
        ⟨.returned (some ⟨.RakJsServer, .RakJsClient, true⟩), ["raknet-native", "jsp-raknet"],
          [fallbackDiagnostic backend]⟩) ∧
    (loads "raknet-native" = false → loads "jsp-raknet" = false →
      select loads backend =
        ⟨.threw (.moduleNotFound "jsp-raknet"), ["raknet-native", "jsp-raknet"],
          [fallbackDiagnostic backend]⟩) := by
  refine ⟨fun h1 => ?_, fun h1 h2 => ?_, fun h1 h2 => ?_⟩
  · simp [select, hfalsy, setBackend, require, h1]
  · simp [select, hfalsy, setBackend, require, h1, h2]
  · simp [select, hfalsy, setBackend, require, h1, h2]

/-- Witness of the amended C8 at the empty string, with only `jsp-raknet` loadable. -/
theorem select_default_witness :
    select (fun m => m == "jsp-raknet") (.str "") =
      ⟨.returned (some ⟨.RakJsServer, .RakJsClient, true⟩), ["raknet-native", "jsp-raknet"],
        [fallbackDiagnostic (.str "")]⟩ :=
  (select_default (fun m => m == "jsp-raknet") (.str "") rfl).2.1 (by decide) (by decide)

/-! ## Client adapters: sending -/

/-- C1, counterexample: `RakJsClient` has no connected guard. Before `connect()`
its `sendReliable` throws in both variants, the plain variant also throws while
the handshake of `connect()` is pending and after a `ping()` alone, and after
`connect()` and `close()` the worker variant still posts the packet to the worker. -/
theorem sendReliable_js_unguarded :
    ((Client.new .jsPlain).sendReliable [1] true).threw
        = some (.typeError "this.raknet is undefined") ∧
      ((Client.new .jsWorker).sendReliable [1] true).threw
        = some (.typeError "this.worker is undefined") ∧
      ((Client.new .jsPlain).connect.sendReliable [1] true).threw
        = some (.typeError "this.raknet.connection is undefined") ∧
      ((Client.new .jsPlain).pingStart.sendReliable [1] true).threw
        = some (.typeError "this.raknet.connection is undefined") ∧
      ((((Client.new .jsWorker).connect.close none).next.sendReliable [1] false).next.backend
        = [.workerConnect, .postMessage (.close none),
            .postMessage (.queueEncapsulated [1] false)]) := by
  refine ⟨rfl, rfl, rfl, rfl, rfl⟩

/-- C1, amended: on a `RakSanctClient` or `RakNativeClient` that is not connected,
`sendReliable` returns without throwing and leaves the adapter, and with it the
backend call log, exactly as it was, for every buffer and every `immediate`; a
freshly constructed adapter of these classes is not connected. For `RakJsClient`,
which keeps no connected flag, the call is forwarded whenever the object it sends
through exists: the worker in the worker variant, the connection of the backend
client in the plain variant. -/
theorem sendReliable_not_connected (c : Client) (buffer : Buffer) (immediate : Bool)
    (hk : c.kind = .sanct ∨ c.kind = .native) (hc : c.connected ≠ some true) :
    c.sendReliable buffer immediate = ⟨none, c⟩ ∧
      (Client.new c.kind).sendReliable buffer immediate = ⟨none, Client.new c.kind⟩ ∧
      (∀ j : Client, j.kind = .jsWorker → j.worker = true →
        j.sendReliable buffer immediate =
          ⟨none, { j with backend :=
            j.backend ++ [.postMessage (.queueEncapsulated buffer immediate)] }⟩) ∧
      (∀ j : Client, j.kind = .jsPlain → j.raknet = true → j.connection = true →
        j.sendReliable buffer immediate =
          ⟨none, { j with backend := j.backend ++ [.addEncapsulatedToQueue buffer] ++
            (if immediate then [.sendQueue] else []) }⟩) := by
  refine ⟨?_, ?_, ?_, ?_⟩
  · rcases hk with hk | hk <;> simp [Client.sendReliable, hk, hc]
  · rcases hk with hk | hk <;> rw [hk] <;> simp [Client.sendReliable, Client.new]
  · intro j hj hw; simp [Client.sendReliable, hj, hw]
  · intro j hj hr hcn; simp [Client.sendReliable, hj, hr, hcn]

/-- Witness of the amended C1 at a fresh `RakNativeClient`. -/
theorem sendReliable_not_connected_witness :
    (Client.new .native).sendReliable [1, 2, 3] true = ⟨none, Client.new .native⟩ :=
  (sendReliable_not_connected (Client.new .native) [1, 2, 3] true (Or.inr rfl) (by decide)).1

/-! ## Client adapters: delivery after close -/

/-- A guarded adapter that is not connected stays so, and delivers nothing,
through any events other than `'connect'`. -/
theorem run_not_connected (events : List Event) :
    ∀ c : Client, (c.kind = .sanct ∨ c.kind = .native) → c.connected ≠ some true →
      Event.connect ∉ events →
      delivered (c.run events).consumer = delivered c.consumer := by
  induction events with
  | nil => intro c _ _ _; rfl
  | cons e rest ih =>
    intro c hk hc hne
    have hrest : Event.connect ∉ rest := fun h => hne (List.mem_cons_of_mem _ h)
    have he : e ≠ Event.connect := fun h => hne (h ▸ List.mem_cons_self _ _)
    have hstep : ((c.onEvent e).kind = .sanct ∨ (c.onEvent e).kind = .native) ∧
        (c.onEvent e).connected ≠ some true ∧
        delivered (c.onEvent e).consumer = delivered c.consumer := by
      rcases hk with hk | hk <;> cases e <;>
        simp_all [Client.onEvent, delivered, List.countP_append]
    have := ih (c.onEvent e) hstep.1 hstep.2.1 hrest
    simpa [Client.run, hstep.2.2] using this

/-- C2, counterexample: on a `RakNativeClient`, a backend `'connect'` event after
`close()` sets the flag again, and the `'encapsulated'` event behind it reaches
the consumer; a `RakJsClient` delivers after `close()` without any such event. -/
theorem delivery_after_close :
    ((((Client.new .native).connect.close none).next.run
        [.connect, .encapsulated [7] "10.0.0.1"]).consumer
        = [.onConnected, .onEncapsulated [7] "10.0.0.1"]) ∧
      ((((Client.new .jsWorker).connect.close none).next.run
        [.encapsulated [7] "10.0.0.1/19132"]).consumer
        = [.onEncapsulated [7] "10.0.0.1/19132"]) := by
  refine ⟨rfl, rfl⟩

/-- C2, amended: for `RakSanctClient` and `RakNativeClient`, and every sequence of
backend events after `close()` that contains no `'connect'` event, the consumer's
`onEncapsulated` handler is not invoked. -/
theorem no_delivery_after_close (c : Client) (reason : Option String) (events : List Event)
    (hk : c.kind = .sanct ∨ c.kind = .native) (hne : Event.connect ∉ events) :
    delivered ((c.close reason).next.run events).consumer = delivered c.consumer := by
  have hstep : ((c.close reason).next.kind = .sanct ∨ (c.close reason).next.kind = .native) ∧
      (c.close reason).next.connected ≠ some true ∧
      (c.close reason).next.consumer = c.consumer := by
    rcases hk with hk | hk <;> simp [Client.close, hk]
  rw [run_not_connected events _ hstep.1 hstep.2.1 hne, hstep.2.2]

/-- Witness of the amended C2: a connected `RakSanctClient` is closed, then two
packets and a backend close arrive. -/
theorem no_delivery_after_close_witness :
    delivered ((((Client.new .sanct).run [.connect]).close none).next.run
        [.encapsulated [1] "a", .disconnect none, .encapsulated [2] "b"]).consumer
      = delivered ((Client.new .sanct).run [.connect]).consumer :=
  no_delivery_after_close ((Client.new .sanct).run [.connect]) none
    [.encapsulated [1] "a", .disconnect none, .encapsulated [2] "b"] (Or.inl rfl) (by decide)

/-! ## Deferred teardown -/

/-- Letting all pending timers of a client expire appends their tasks to the
backend call log, in order. -/
theorem client_fire_iterate (ts : List (Timer BackendCall)) :
    ∀ c : Client, c.timers = ts →
      Nat.iterate Client.fire ts.length c =
        { c with timers := [], backend := c.backend ++ ts.map fun t => t.task } := by
  induction ts with
  | nil => intro c h; cases c; simp_all
  | cons t rest ih =>
    intro c h
    rw [List.length_cons, Function.iterate_succ_apply, ih (Client.fire c)]
    · simp [Client.fire, h]
    · simp [Client.fire, h]

/-- The same for the timers of a server whose backend exists. -/
theorem server_fire_iterate (ts : List (Timer ServerCall)) :
    ∀ s : Server, s.timers = ts → s.raknet = true →
      Nat.iterate (fun x => (Server.fire x).next) ts.length s =
        { s with timers := [], backend := s.backend ++ ts.map fun t => t.task } := by
  induction ts with
  | nil => intro s h _; cases s; simp_all
  | cons t rest ih =>
    intro s h hr
    rw [List.length_cons, Function.iterate_succ_apply, ih (Server.fire s).next]
    · simp [Server.fire, h, hr]
    · simp [Server.fire, h, hr]
    · simp [Server.fire, h, hr]

/-- Calling `close()` `n` times on a guarded client schedules `n` timers and
changes nothing else but the flag. -/
theorem client_closeN_spec (n : Nat) (c : Client) (hk : c.kind = .sanct ∨ c.kind = .native) :
    (c.closeN n).kind = c.kind ∧ (c.closeN n).backend = c.backend ∧
      (c.closeN n).timers = c.timers ++ List.replicate n ⟨40, releaseOf c.kind⟩ := by
  induction n with
  | zero => simp [Client.closeN]
  | succ m ih =>
    have hrep : List.replicate (m + 1) (⟨40, releaseOf c.kind⟩ : Timer BackendCall)
        = List.replicate m ⟨40, releaseOf c.kind⟩ ++ [⟨40, releaseOf c.kind⟩] := by
      rw [List.replicate_succ']
    obtain ⟨h1, h2, h3⟩ := ih
    have hstep : c.closeN (m + 1) = ((c.closeN m).close none).next := by
      simp [Client.closeN, Function.iterate_succ_apply']
    have hk' : (c.closeN m).kind = .sanct ∨ (c.closeN m).kind = .native := h1 ▸ hk
    rw [hstep, hrep]
    rcases hk with hk | hk
    · have hm : (c.closeN m).kind = .sanct := h1.trans hk
      simp [Client.close, hm, hk, h2, h3, releaseOf]
    · have hm : (c.closeN m).kind = .native := h1.trans hk
      simp [Client.close, hm, hk, h2, h3, releaseOf]

/-- Calling `close()` `n` times on a `RakJsServer` schedules `n` timers and
changes nothing else. -/
theorem server_closeN_spec (n : Nat) (s : Server) (hk : s.kind = .js) :
    (s.closeN n).kind = .js ∧ (s.closeN n).backend = s.backend ∧
      (s.closeN n).raknet = s.raknet ∧
      (s.closeN n).timers = s.timers ++ List.replicate n ⟨40, .close⟩ := by
  induction n with
  | zero => simp [Server.closeN, hk]
  | succ m ih =>
    obtain ⟨h1, h2, h3, h4⟩ := ih
    have hstep : s.closeN (m + 1) = (s.closeN m).close := by
      simp [Server.closeN, Function.iterate_succ_apply']
    rw [hstep, List.replicate_succ']
    simp [Server.close, h1, h2, h3, h4]

/-- The release count of a log extended by `n` release calls. -/
theorem releases_append_replicate (log : List BackendCall) (k : Kind) (n : Nat) :
    releases (log ++ (List.replicate n (⟨40, releaseOf k⟩ : Timer BackendCall)).map
      fun t => t.task) = releases log + n := by
  cases k <;> simp [releases, releaseOf, List.countP_append, List.countP_replicate]

/-- C3, counterexample: two `close()` calls on a `RakNativeClient` leave two
timers, and when they have expired the backend has been closed twice, whereas one
call closes it once. -/
theorem close_twice_releases_twice :
    ((Client.new .native).closeN 2).timers = [⟨40, .close none⟩, ⟨40, .close none⟩] ∧
      releases ((Client.new .native).closeN 2).fireAll.backend = 2 ∧
      releases ((Client.new .native).closeN 1).fireAll.backend = 1 := by
  refine ⟨rfl, rfl, rfl⟩

/-- C3, amended: each `close()` call schedules a release of its own. For
`RakSanctClient` and `RakNativeClient`, `n` calls add `n` timers of 40 ms to the
pending ones, and once they have expired the backend has been released `n` times;
the same holds for a `RakJsServer` whose backend exists. -/
theorem close_n_times (n : Nat) (c : Client) (s : Server)
    (hk : c.kind = .sanct ∨ c.kind = .native) (hs : s.kind = .js) :
    (c.closeN n).timers = c.timers ++ List.replicate n ⟨40, releaseOf c.kind⟩ ∧
      (c.timers = [] → releases (c.closeN n).fireAll.backend = releases c.backend + n) ∧
      (s.closeN n).timers = s.timers ++ List.replicate n ⟨40, .close⟩ ∧
      (s.raknet = true → s.timers = [] →
        serverReleases (s.closeN n).fireAll.backend = serverReleases s.backend + n) := by
  obtain ⟨_, c2, c3⟩ := client_closeN_spec n c hk
  obtain ⟨_, s2, s3, s4⟩ := server_closeN_spec n s hs
  refine ⟨c3, ?_, s4, ?_⟩
  · intro ht
    rw [Client.fireAll, client_fire_iterate _ _ rfl]
    simp only [c2, c3, ht, List.nil_append]
    exact releases_append_replicate c.backend c.kind n
  · intro hr ht
    rw [Server.fireAll, server_fire_iterate _ _ rfl (s3.trans hr)]
    simp [s2, s4, ht, serverReleases, List.count_replicate]

/-- Witness of the amended C3: three `close()` calls on a fresh `RakSanctClient`
and on a listening `RakJsServer`. -/
theorem close_n_times_witness :
    releases ((Client.new .sanct).closeN 3).fireAll.backend = 0 + 3 ∧
      serverReleases
          (((Server.new .js "0.0.0.0" 19132 none false ⟨"m", "l", "1", "1.21.50", 3⟩).listen).closeN
            3).fireAll.backend = 0 + 3 :=
  have h := close_n_times 3 (Client.new .sanct)
    ((Server.new .js "0.0.0.0" 19132 none false ⟨"m", "l", "1", "1.21.50", 3⟩).listen)
    (Or.inl rfl) rfl
  ⟨h.2.1 rfl, h.2.2.2 rfl rfl⟩

/-- C4, counterexample: `close()` of a plain `RakJsClient` calls `raknet.close`
inside the call and schedules no timer, and the worker variant posts the close
message at once; neither assigns a connected flag. -/
theorem close_js_synchronous :
    ((Client.new .jsPlain).connect.close (some "bye")).next.backend
        = [.newClient, .connect, .close (some "bye")] ∧
      ((Client.new .jsPlain).connect.close (some "bye")).next.timers = [] ∧
      ((Client.new .jsPlain).connect.close (some "bye")).next.connected = none ∧
      ((Client.new .jsWorker).connect.close (some "bye")).next.backend
        = [.workerConnect, .postMessage (.close (some "bye"))] ∧
      ((Client.new .jsWorker).connect.close (some "bye")).next.timers = [] := by
  refine ⟨rfl, rfl, rfl, rfl, rfl⟩

/-- C4, amended: for `RakSanctClient` and `RakNativeClient`, `close()` returns
without throwing with the connected flag set to false, makes no backend call
inside the call, and adds to the pending timers exactly one timer, of 40 ms, whose
expiry performs the backend release. -/
theorem close_defers_release (c : Client) (reason : Option String)
    (hk : c.kind = .sanct ∨ c.kind = .native) :
    (c.close reason).threw = none ∧
      (c.close reason).next.connected = some false ∧
      (c.close reason).next.backend = c.backend ∧
      (c.close reason).next.timers = c.timers ++ [⟨40, releaseOf c.kind⟩] ∧
      releases [releaseOf c.kind] = 1 := by
  rcases hk with hk | hk <;> simp [Client.close, hk, releaseOf, releases]

/-- Witness of the amended C4 at a connected `RakNativeClient`. -/
theorem close_defers_release_witness :
    (((Client.new .native).run [.connect]).close none).next.connected = some false ∧
      (((Client.new .native).run [.connect]).close none).next.timers = [⟨40, .close none⟩] :=
  have h := close_defers_release ((Client.new .native).run [.connect]) none (Or.inr rfl)
  ⟨h.2.1, h.2.2.2.1⟩

/-! ## Ping -/

/-- C5: for every client adapter and every timeout, if no completion reaches the
ping callback before the timer expires, `ping` fails with the `RakTimeout` error
`Ping timed out`; it does not resolve and does not stay pending. -/
theorem ping_times_out (k : Kind) (timeout : Nat) (replies : List (Nat × Reply))
    (hlate : ∀ r ∈ replies, pingDone k r.2 ≠ none → timeout ≤ r.1) :
    ping k timeout replies = .rejected (.rakTimeout "Ping timed out") := by
  have hnone : (replies.filterMap fun r => (pingDone k r.2).map fun v => (r.1, v)).find?
      (fun d => d.1 < timeout) = none := by
    rw [List.find?_eq_none]
    intro d hd
    obtain ⟨r, hr, hrd⟩ := List.mem_filterMap.1 hd
    cases hp : pingDone k r.2 with
    | none => simp [hp] at hrd
    | some v =>
      simp only [hp, Option.map_some', Option.some.injEq] at hrd
      have := hlate r hr (by simp [hp])
      subst hrd
      simpa using this
  simp [ping, waitFor, hnone, pingOnTimeout]

/-- Witness of C5: with the default timeout, a peer that never replies, and a
`RakNativeClient` whose only pong carries no payload. -/
theorem ping_times_out_witness :
    ping .sanct defaultPingTimeout [] = .rejected (.rakTimeout "Ping timed out") ∧
      ping .native 500 [(20, .pong none), (700, .pong (some "MOTD"))]
        = .rejected (.rakTimeout "Ping timed out") :=
  ⟨ping_times_out .sanct defaultPingTimeout [] (by simp),
    ping_times_out .native 500 [(20, .pong none), (700, .pong (some "MOTD"))]
      (by simp [pingDone])⟩

/-- C6, counterexample: a `RakNativeClient` whose backend answers after 10 ms with
a pong that carries no payload does not resolve; its `ping` fails with the
timeout error. -/
theorem ping_native_empty_pong :
    ping .native 1000 [(10, .pong none)] = .rejected (.rakTimeout "Ping timed out") ∧
      ping .native 1000 [(10, .pong none)] ≠ .resolved none := by
  refine ⟨rfl, by decide⟩

/-- The value `ping` resolves with comes from a reply that arrived before the
deadline and that the adapter's callback completed with. -/
theorem ping_resolved_source (k : Kind) (timeout : Nat) (replies : List (Nat × Reply))
    (v : Option String) (h : ping k timeout replies = .resolved v) :
    ∃ r ∈ replies, r.1 < timeout ∧ pingDone k r.2 = some v := by
  unfold ping waitFor at h
  split at h
  · rename_i d hd
    have hmem := List.mem_of_find?_eq_some hd
    have hlt := List.find?_some hd
    obtain ⟨r, hr, hrd⟩ := List.mem_filterMap.1 hmem
    cases hp : pingDone k r.2 with
    | none => simp [hp] at hrd
    | some w =>
      simp only [hp, Option.map_some', Option.some.injEq] at hrd
      subst hrd
      simp only [Settled.resolved.injEq] at h
      subst h
      exact ⟨r, hr, by simpa using hlt, hp⟩
  · simp [pingOnTimeout] at h

/-- C6, amended: when the first reply comes before the deadline and is a failure,
`ping` resolves with `null` on `RakSanctClient` (a rejected promise, or a
fulfilment that `AdvertisementToString` cannot format) and on `RakJsClient` (a pong
without data); `RakNativeClient` ignores a pong without payload and goes on
waiting. Whenever `ping` resolves, on any adapter, the value is `null` or the whole
string of a pong, or of a formatted fulfilment, that arrived before the deadline. -/
theorem ping_failure_and_payload (timeout t0 : Nat) (rest : List (Nat × Reply))
    (hat : t0 < timeout) :
    ping .sanct timeout ((t0, .rejected) :: rest) = .resolved none ∧
      (∀ e, ping .sanct timeout ((t0, .fulfilled (.threw e)) :: rest) = .resolved none) ∧
      ping .jsPlain timeout ((t0, .pong none) :: rest) = .resolved none ∧
      ping .jsWorker timeout ((t0, .pong none) :: rest) = .resolved none ∧
      ping .native timeout ((t0, .pong none) :: rest) = ping .native timeout rest ∧
      (∀ (k : Kind) (replies : List (Nat × Reply)) (v : Option String),
        ping k timeout replies = .resolved v →
          v = none ∨ ∃ r ∈ replies, r.1 < timeout ∧ ∃ text, v = some text ∧
            (r.2 = .pong (some text) ∨ r.2 = .fulfilled (.returned text))) := by
  refine ⟨?_, ?_, ?_, ?_, ?_, ?_⟩
  · simp [ping, waitFor, pingDone, hat]
  · intro e; simp [ping, waitFor, pingDone, hat]
  · simp [ping, waitFor, pingDone, hat]
  · simp [ping, waitFor, pingDone, hat]
  · simp [ping, pingDone]
  · intro k replies v h
    obtain ⟨r, hr, hlt, hd⟩ := ping_resolved_source k timeout replies v h
    cases v with
    | none => exact Or.inl rfl
    | some text =>
      refine Or.inr ⟨r, hr, hlt, text, rfl, ?_⟩
      obtain ⟨t, reply⟩ := r
      cases k <;> cases reply <;> simp_all [pingDone]
      · rename_i formatted; cases formatted <;> simp_all
      · rename_i payload; cases payload <;> simp_all

/-- Witness of the amended C6: a rejected ping after 30 ms against a deadline of
1000 ms. -/
theorem ping_failure_and_payload_witness :
    ping .sanct 1000 [(30, .rejected)] = .resolved none :=
  (ping_failure_and_payload 1000 30 [] (by decide)).1

/-! ## Connection identifiers -/

/-- Digits produced with an accumulator are the digits alone followed by it. -/
theorem toDigitsCore_append (fuel : Nat) :
    ∀ (n : Nat) (ds : List Char),
      Nat.toDigitsCore 10 fuel n ds = Nat.toDigitsCore 10 fuel n [] ++ ds := by
  induction fuel with
  | zero => intro n ds; simp [Nat.toDigitsCore]
  | succ f ih =>
    intro n ds
    simp only [Nat.toDigitsCore]
    split_ifs with h
    · simp
    · rw [ih (n / 10) (Nat.digitChar (n % 10) :: ds), ih (n / 10) [Nat.digitChar (n % 10)]]
      simp

/-- A decimal digit character denotes its digit. -/
theorem digitChar_value (d : Nat) (h : d < 10) : (Nat.digitChar d).toNat - 48 = d := by
  interval_cases d <;> rfl

/-- Reading back the decimal digits of a number gives the number. -/
theorem digitsValue_toDigitsCore (fuel : Nat) :
    ∀ n : Nat, n < fuel → digitsValue (Nat.toDigitsCore 10 fuel n []) = n := by
  induction fuel with
  | zero => intro n h; omega
  | succ f ih =>
    intro n hn
    simp only [Nat.toDigitsCore]
    split_ifs with h
    · have hlt : n < 10 := by omega
      have hmod : n % 10 = n := Nat.mod_eq_of_lt hlt
      simp [digitsValue, hmod, digitChar_value n hlt]
    · rw [toDigitsCore_append f (n / 10) [Nat.digitChar (n % 10)]]
      have hdiv : n / 10 < f := by omega
      have hrec := ih (n / 10) hdiv
      unfold digitsValue at hrec ⊢
      rw [List.foldl_append, hrec]
      simp only [List.foldl_cons, List.foldl_nil]
      rw [digitChar_value (n % 10) (Nat.mod_lt n (by decide))]
      omega

/-- The decimal rendering of a port determines the port. -/
theorem toDigits_injective (p q : Nat) (h : Nat.toDigits 10 p = Nat.toDigits 10 q) : p = q := by
  have hp := digitsValue_toDigitsCore (p + 1) p (Nat.lt_succ_self p)
  have hq := digitsValue_toDigitsCore (q + 1) q (Nat.lt_succ_self q)
  unfold Nat.toDigits at h
  rw [h] at hp
  exact hp.symm.trans hq

/-- Two lists that agree after being cut at the first separator agree part by part. -/
theorem split_at_separator (sep : Char) :
    ∀ (l₁ l₂ r₁ r₂ : List Char), sep ∉ l₁ → sep ∉ l₂ →
      l₁ ++ sep :: r₁ = l₂ ++ sep :: r₂ → l₁ = l₂ ∧ r₁ = r₂ := by
  intro l₁
  induction l₁ with
  | nil =>
    intro l₂ r₁ r₂ _ h₂ h
    cases l₂ with
    | nil => simpa using h
    | cons b t =>
      simp only [List.nil_append, List.cons_append, List.cons.injEq] at h
      exact absurd (h.1 ▸ List.mem_cons_self _ _) h₂
  | cons a t ih =>
    intro l₂ r₁ r₂ h₁ h₂ h
    cases l₂ with
    | nil =>
      simp only [List.nil_append, List.cons_append, List.cons.injEq] at h
      exact absurd (h.1 ▸ List.mem_cons_self _ _) h₁
    | cons b u =>
      simp only [List.cons_append, List.cons.injEq] at h
      obtain ⟨hl, hr⟩ := ih u r₁ r₂ (fun hm => h₁ (List.mem_cons_of_mem _ hm))
        (fun hm => h₂ (List.mem_cons_of_mem _ hm)) h.2
      exact ⟨by rw [h.1, hl], hr⟩

/-- The identifier as a list of characters. -/
theorem connHash_data (address : String) (port : Nat) :
    (connHash address port).data = address.data ++ '/' :: Nat.toDigits 10 port := by
  simp [connHash, String.data_append, toString, Nat.repr, List.asString]

/-- C10: the identifier `RakSanctServer` attaches to a peer, as `address.hash` of
the connection and as the hash handed to the consumer's `onEncapsulated`, is the
peer's host, a slash and its port; and for hosts without a slash two identifiers
are equal exactly when the hosts and the ports are equal. -/
theorem connHash_identifies (s : Server) (packet : Buffer) (a b : Conn)
    (hs : s.kind = .sanct) (ha : '/' ∉ a.address.data) (hb : '/' ∉ b.address.data) :
    (s.onConnect a).conns = s.conns ++
        [{ a with connected := true, hash := some (a.address ++ "/" ++ toString a.port) }] ∧
      (s.onEncapsulated packet a).consumer = s.consumer ++
        [.onEncapsulated packet a.address a.port (some (a.address ++ "/" ++ toString a.port))] ∧
      (connHash a.address a.port = connHash b.address b.port ↔
        a.address = b.address ∧ a.port = b.port) := by
  refine ⟨by simp [Server.onConnect, hs, connHash],
    by simp [Server.onEncapsulated, hs, connHash], ?_⟩
  constructor
  · intro h
    have hd := congrArg String.data h
    rw [connHash_data, connHash_data] at hd
    obtain ⟨h1, h2⟩ := split_at_separator '/' _ _ _ _ ha hb hd
    exact ⟨String.ext_iff.2 h1, toDigits_injective _ _ h2⟩
  · rintro ⟨h1, h2⟩
    rw [h1, h2]

/-- Witness of C10: two sequential connections from `127.0.0.1`, port 19132. -/
theorem connHash_identifies_witness :
    connHash "127.0.0.1" 19132 = connHash "127.0.0.1" 19132 ↔
      "127.0.0.1" = "127.0.0.1" ∧ 19132 = 19132 :=
  (connHash_identifies (Server.new .sanct "0.0.0.0" 19133 none false ⟨"m", "l", "1", "1.21.50", 3⟩)
    [1] ⟨"127.0.0.1", 19132, false, none⟩ ⟨"127.0.0.1", 19132, true, none⟩ rfl
    (by decide) (by decide)).2.2

/-! ## Advertisement updates -/

/-- C9, counterexample: `updateAdvertisement()` of a `RakJsServer` that has not
listened yet throws, because the backend is only created by `listen()`; and on a
`RakSanctServer` it throws when `BigInt` rejects the advertisement's server id. -/
theorem updateAdvertisement_before_listen :
    ((Server.new .js "0.0.0.0" 19132 none false ⟨"m", "l", "1", "1.21.50", 3⟩).updateAdvertisement
        bigIntOfDigits ⟨"m", "l", "1", "1.21.50", 3⟩).threw
        = some (.typeError "this.raknet is undefined") ∧
      ((Server.new .sanct "0.0.0.0" 19132 none false ⟨"m", "l", "1", "1.21.50", 3⟩).updateAdvertisement
        bigIntOfDigits ⟨"m", "l", "abc", "1.21.50", 3⟩).threw
        = some (.external "BigInt") := by
  refine ⟨rfl, by decide⟩

/-- C9, amended: on every server adapter, and for every advertisement,
`updateAdvertisement()` leaves the host, the port, the protocol id and the live
connections, with their connected flags and identifiers, as they were; at the
backend it only writes advertisement fields or makes one advertisement call. It
returns normally on `RakNativeServer` at any time after construction, on
`RakSanctServer` at any time after construction when `BigInt` accepts the server
id, and on `RakJsServer` once `listen()` has created the backend. -/
theorem updateAdvertisement_frame (toBigInt : String → Option Int) (s : Server)
    (ad : Advertisement) :
    (s.updateAdvertisement toBigInt ad).next.kind = s.kind ∧
      (s.updateAdvertisement toBigInt ad).next.raknet = s.raknet ∧
      (s.updateAdvertisement toBigInt ad).next.host = s.host ∧
      (s.updateAdvertisement toBigInt ad).next.port = s.port ∧
      (s.updateAdvertisement toBigInt ad).next.protocol = s.protocol ∧
      (s.updateAdvertisement toBigInt ad).next.conns = s.conns ∧
      (s.updateAdvertisement toBigInt ad).next.timers = s.timers ∧
      ((s.updateAdvertisement toBigInt ad).next.backend = s.backend ∨
        (s.updateAdvertisement toBigInt ad).next.backend = s.backend ++ [.setOfflineMessage ad] ∨
        (s.updateAdvertisement toBigInt ad).next.backend
          = s.backend ++ [.setPongAdvertisement ad]) ∧
      (s.kind = .native → (s.updateAdvertisement toBigInt ad).threw = none) ∧
      (s.kind = .sanct → (toBigInt ad.serverId).isSome = true →
        (s.updateAdvertisement toBigInt ad).threw = none) ∧
      (s.kind = .js → s.raknet = true → (s.updateAdvertisement toBigInt ad).threw = none) ∧
      (∀ (k : ServerKind) (host : String) (port : Nat) (maxPlayers : Option Nat)
          (versionLessThan : Bool) (ad0 : Advertisement),
        k ≠ .js → (toBigInt ad.serverId).isSome = true →
          ((Server.new k host port maxPlayers versionLessThan ad0).updateAdvertisement
            toBigInt ad).threw = none) := by
  refine ⟨?_, ?_, ?_, ?_, ?_, ?_, ?_, ?_, ?_, ?_, ?_, ?_⟩
  case refine_12 =>
    intro k host port maxPlayers versionLessThan ad0 hk hsome
    cases k
    · cases hb : toBigInt ad.serverId <;> simp_all [Server.updateAdvertisement, Server.new]
    · simp [Server.updateAdvertisement, Server.new]
    · exact absurd rfl hk
  all_goals
    (unfold Server.updateAdvertisement
     cases hk : s.kind <;> simp only [] <;>
       (try cases hb : toBigInt ad.serverId) <;> (try cases hr : s.raknet) <;> simp_all)

/-- Witness of the amended C9: a `RakSanctServer` with one open connection is
updated before `listen()`. -/
theorem updateAdvertisement_frame_witness :
    (((Server.new .sanct "0.0.0.0" 19132 none false ⟨"m", "l", "1", "1.21.50", 3⟩).onConnect
        ⟨"10.0.0.1", 5000, false, none⟩).updateAdvertisement bigIntOfDigits
        ⟨"n", "k", "42", "1.21.50", 10⟩).threw = none :=
  (updateAdvertisement_frame bigIntOfDigits
    ((Server.new .sanct "0.0.0.0" 19132 none false ⟨"m", "l", "1", "1.21.50", 3⟩).onConnect
      ⟨"10.0.0.1", 5000, false, none⟩)
    ⟨"n", "k", "42", "1.21.50", 10⟩).2.2.2.2.2.2.2.2.2.1 rfl rfl

end Rak
